import Mathlib

set_option maxHeartbeats 1600000

/-!
Verification of the selector subsystem of the lightningcss CSS compiler
(`src/selector.rs`, with the CLI in `src/main.rs`).

The development shallowly embeds the selector data model, the serializer,
the downleveler helpers and the query functions (`is_compatible`,
`getPrefix` for `get_prefix`, `is_unused`) and proves the specification's
claims about them.  Types that live in collaborating crates
(`parcel_selectors`, the printer, the browser-compatibility database) are
modelled from the specification's description of their interfaces; each
such definition carries a doc comment saying so.
-/

namespace Css

/-- A vendor prefix bit-set over None, WebKit, Moz, Ms and O
(`vendor_prefix.rs` is outside `src/`; modelled from the spec: "a bit-set
over (None, WebKit, Moz, Ms, O); empty set means no prefix applicable"). -/
structure VendorPrefix where
  vNone : Bool
  vWebKit : Bool
  vMoz : Bool
  vMs : Bool
  vO : Bool
deriving DecidableEq, Repr

/-- The empty prefix set. -/
def VendorPrefix.empty : VendorPrefix := ⟨false, false, false, false, false⟩

/-- The singleton `VendorPrefix::None` flag. -/
def VendorPrefix.None : VendorPrefix := ⟨true, false, false, false, false⟩

/-- The singleton `VendorPrefix::WebKit` flag. -/
def VendorPrefix.WebKit : VendorPrefix := ⟨false, true, false, false, false⟩

/-- The singleton `VendorPrefix::Moz` flag. -/
def VendorPrefix.Moz : VendorPrefix := ⟨false, false, true, false, false⟩

/-- The singleton `VendorPrefix::Ms` flag. -/
def VendorPrefix.Ms : VendorPrefix := ⟨false, false, false, true, false⟩

/-- The singleton `VendorPrefix::O` flag. -/
def VendorPrefix.O : VendorPrefix := ⟨false, false, false, false, true⟩

/-- `VendorPrefix::is_empty`: no bit is set. -/
def VendorPrefix.isEmpty (v : VendorPrefix) : Bool :=
  !(v.vNone || v.vWebKit || v.vMoz || v.vMs || v.vO)

/-- Bitwise union of two prefix sets (the `|` operator on the bitflags). -/
def VendorPrefix.or (a b : VendorPrefix) : VendorPrefix :=
  ⟨a.vNone || b.vNone, a.vWebKit || b.vWebKit, a.vMoz || b.vMoz,
   a.vMs || b.vMs, a.vO || b.vO⟩

/-- `VendorPrefix::intersects`: the two sets share a bit. -/
def VendorPrefix.intersects (a b : VendorPrefix) : Bool :=
  (a.vNone && b.vNone) || (a.vWebKit && b.vWebKit) || (a.vMoz && b.vMoz) ||
  (a.vMs && b.vMs) || (a.vO && b.vO)

/-- Textual form of a vendor prefix.  Modelled from the spec: the glossary's
tokens `-webkit-`, `-moz-`, `-ms-`, `-o-`; a non-singleton or `None` set
emits nothing (`vendor_prefix.rs` is outside `src/`). -/
def VendorPrefix.to_css (v : VendorPrefix) : String :=
  if v = VendorPrefix.WebKit then "-webkit-"
  else if v = VendorPrefix.Moz then "-moz-"
  else if v = VendorPrefix.Ms then "-ms-"
  else if v = VendorPrefix.O then "-o-"
  else ""

/-- The `:dir()` direction (`enum_property!` at `selector.rs` line 314). -/
inductive Direction where
  | Ltr
  | Rtl
deriving DecidableEq, Repr

/-- Textual form of a `Direction`, as generated by `enum_property!`
(lower-case variant names). -/
def Direction.to_css : Direction → String
  | .Ltr => "ltr"
  | .Rtl => "rtl"

/-- Combinator variants.  Modelled from the spec: "`Descendant`
(whitespace), `Child`, `NextSibling`, `LaterSibling`, plus synthetic
markers `PseudoElement` and `SlotAssignment`" — plus the `Part` marker the
source's `ToCss` instance at `selector.rs` line 1050 also silences
(`parcel_selectors` is outside `src/`). -/
inductive Combinator where
  | Child
  | Descendant
  | NextSibling
  | LaterSibling
  | PseudoElement
  | SlotAssignment
  | Part
deriving DecidableEq, Repr

/-- Attribute selector operators, per the external `parcel_selectors::attr`
(modelled from the spec's attribute data model). -/
inductive AttrSelectorOperator where
  | Equal
  | Includes
  | DashMatch
  | Prefix
  | Substring
  | Suffix
deriving DecidableEq, Repr

/-- Parsed case sensitivity of an attribute selector, per the external
`parcel_selectors::attr` (modelled from the spec). -/
inductive ParsedCaseSensitivity where
  | CaseSensitive
  | AsciiCaseInsensitiveIfInHtmlElementInHtmlDocument
  | AsciiCaseInsensitive
  | ExplicitCaseSensitive
deriving DecidableEq, Repr

/-- The operation stored in a namespaced attribute selector
(`ParsedAttrSelectorOperation`; modelled from the spec). -/
inductive ParsedAttrSelectorOperation where
  | Exists
  | WithValue (operator : AttrSelectorOperator)
      (case_sensitivity : ParsedCaseSensitivity) (value : String)
deriving DecidableEq, Repr

/-- A namespaced attribute selector (`Component::AttributeOther` payload;
modelled from the spec, keeping only the parts the source inspects). -/
structure AttributeSelector where
  local_name : String
  operation : ParsedAttrSelectorOperation
deriving DecidableEq, Repr

/-- The webkit scrollbar pseudo classes (`selector.rs` line 489). -/
inductive WebKitScrollbarPseudoClass where
  | Horizontal
  | Vertical
  | Decrement
  | Increment
  | Start
  | End
  | DoubleButton
  | SingleButton
  | NoButton
  | CornerPresent
  | WindowInactive
deriving DecidableEq, Repr

/-- The webkit scrollbar pseudo elements (`selector.rs` line 845). -/
inductive WebKitScrollbarPseudoElement where
  | Scrollbar
  | Button
  | Track
  | TrackPiece
  | Thumb
  | Corner
  | Resizer
deriving DecidableEq, Repr

mutual

/-- A pseudo class (`selector.rs` line 333).  Identifier and token-list
payloads are `String`s; a selector is its list of components in the stored
match order (compounds right-to-left, each compound's contents
left-to-right), per the spec's "stored internally in match order". -/
inductive PseudoClass where
  | Lang (languages : List String)
  | Dir (direction : Direction)
  | Hover
  | Active
  | Focus
  | FocusVisible
  | FocusWithin
  | Current
  | Past
  | Future
  | Playing
  | Paused
  | Seeking
  | Buffering
  | Stalled
  | Muted
  | VolumeLocked
  | Fullscreen (pfx : VendorPrefix)
  | Defined
  | AnyLink (pfx : VendorPrefix)
  | Link
  | LocalLink
  | Target
  | TargetWithin
  | Visited
  | Enabled
  | Disabled
  | ReadOnly (pfx : VendorPrefix)
  | ReadWrite (pfx : VendorPrefix)
  | PlaceholderShown (pfx : VendorPrefix)
  | Default
  | Checked
  | Indeterminate
  | Blank
  | Valid
  | Invalid
  | InRange
  | OutOfRange
  | Required
  | Optional
  | UserValid
  | UserInvalid
  | Autofill (pfx : VendorPrefix)
  | Local (selector : List Component)
  | Global (selector : List Component)
  | WebKitScrollbar (s : WebKitScrollbarPseudoClass)
  | Custom (name : String)
  | CustomFunction (name : String) (arguments : String)

/-- A pseudo element (`selector.rs` line 779). -/
inductive PseudoElement where
  | After
  | Before
  | FirstLine
  | FirstLetter
  | Selection (pfx : VendorPrefix)
  | Placeholder (pfx : VendorPrefix)
  | Marker
  | Backdrop (pfx : VendorPrefix)
  | FileSelectorButton (pfx : VendorPrefix)
  | WebKitScrollbar (s : WebKitScrollbarPseudoElement)
  | Cue
  | CueRegion
  | CueFunction (selector : List Component)
  | CueRegionFunction (selector : List Component)
  | Custom (name : String)
  | CustomFunction (name : String) (arguments : String)

/-- A component of a selector (`parcel_selectors::parser::Component`,
outside `src/`; modelled from the spec's §3 data model, with the payload
shapes the source code of `selector.rs` relies on).  A selector is a
`List Component` in match order; a selector list is a list of selectors. -/
inductive Component where
  | Combinator (c : Combinator)
  | ExplicitAnyNamespace
  | ExplicitNoNamespace
  | DefaultNamespace (url : String)
  | Namespace (pfx : String) (url : String)
  | ExplicitUniversalType
  | LocalName (name : String)
  | ID (name : String)
  | Class (name : String)
  | AttributeInNoNamespaceExists (local_name : String)
  | AttributeInNoNamespace (local_name : String) (operator : AttrSelectorOperator)
      (value : String) (case_sensitivity : ParsedCaseSensitivity)
  | AttributeOther (attr : AttributeSelector)
  | FirstChild
  | LastChild
  | OnlyChild
  | Root
  | Empty
  | Scope
  | FirstOfType
  | LastOfType
  | OnlyOfType
  | NthChild (a : Int) (b : Int)
  | NthLastChild (a : Int) (b : Int)
  | NthOfType (a : Int) (b : Int)
  | NthLastOfType (a : Int) (b : Int)
  | NthCol (a : Int) (b : Int)
  | NthLastCol (a : Int) (b : Int)
  | Is (selectors : List (List Component))
  | Where (selectors : List (List Component))
  | Negation (selectors : List (List Component))
  | Has (selectors : List (List Component))
  | Any (pfx : VendorPrefix) (selectors : List (List Component))
  | Host (selector : Option (List Component))
  | Slotted (selector : List Component)
  | Part (names : List String)
  | Nesting
  | NonTSPseudoClass (pseudo : PseudoClass)
  | PseudoElement (pseudo : PseudoElement)

end

/-- A selector: its components in stored match order. -/
abbrev Selector := List Component

/-- A selector list: one selector per comma-separated branch. -/
abbrev SelectorList := List Selector

/-- The compatibility `Feature` tags consulted by `selector.rs`
(`compat.rs` is outside `src/`; modelled from the spec's §4.3 closed tag
set). -/
inductive Feature where
  | CssSel2
  | CssSel3
  | CssNesting
  | CssMatchesPseudo
  | AnyPseudo
  | CssHas
  | CssNotSelList
  | CssCaseInsensitive
  | CssNamespaces
  | CssAnyLink
  | CssFocusVisible
  | CssFocusWithin
  | CssDirPseudo
  | CssPlaceholderShown
  | CssReadOnlyWrite
  | CssIndeterminatePseudo
  | CssDefaultPseudo
  | CssOptionalPseudo
  | FormValidation
  | CssInOutOfRange
  | CssAutofill
  | CssPlaceholder
  | CssSelection
  | Fullscreen
  | Dialog
  | CssFirstLine
  | CssFirstLetter
  | CssGencontent
  | CssMarkerPseudo
  | Cue
  | CueFunction
  | LangList
  | Shadowdomv1
deriving DecidableEq, Repr

/-- The browser target set.  Modelled from the spec: the compatibility
oracle is "an abstract predicate `supports(feature, targets) → bool`
supplied by an external database", so a target set is modelled by the
predicate itself. -/
structure Browsers where
  supports : Feature → Bool

/-- `Feature::is_compatible` (modelled from the spec's oracle interface). -/
def Feature.is_compatible (f : Feature) (b : Browsers) : Bool :=
  b.supports f

/-- The nesting style context (`rules::StyleContext`, outside `src/`;
modelled from the spec: "`StyleContext { parent-selector-list,
parent-context }`"). -/
inductive StyleContext where
  | mk (selectors : List Selector) (parent : Option StyleContext)

/-- The parent rule's selector list. -/
def StyleContext.selectors : StyleContext → List Selector
  | .mk s _ => s

/-- The enclosing context, if any. -/
def StyleContext.parent : StyleContext → Option StyleContext
  | .mk _ p => p

/-- The printer's remapping of user-action pseudo classes to class names
(`PseudoClasses` in the printer, outside `src/`; modelled from the spec:
"optional remapping of user-action pseudos to class names"). -/
structure PseudoClasses where
  hover : Option String
  active : Option String
  focus : Option String
  focus_visible : Option String
  focus_within : Option String
deriving DecidableEq, Repr

/-- The printer state (`printer.rs` is outside `src/`; modelled from the
spec's §3 `PrinterOptions / PrinterContext`).  `out` accumulates the
emitted text; `cap`, when present, is the capacity of the underlying
`fmt::Write` sink, past which writes fail — modelling that the sink is an
arbitrary fallible writer.  `cssModule` models the CSS-modules renaming
state as a unit flag (its table is external). -/
structure Printer where
  out : String
  cap : Option Nat
  minify : Bool
  targets : Option Browsers
  vendorPrefix : VendorPrefix
  pseudoClasses : Option PseudoClasses
  cssModule : Option Unit
  context : Option StyleContext

/-- A printer error: the sink refused a write (`fmt::Error`), the
recursion fuel ran out (an artefact of the embedding; no terminating run
reaches it at sufficient fuel), or a panic of the source. -/
inductive PErr where
  | FmtErr
  | NoFuel
  | Panicked
deriving DecidableEq, Repr

/-- The result of a serialization step: the printer after the step and,
on failure, the error.  Mirrors `Result<(), PrinterError>` acting on
`&mut Printer`: the state survives the error. -/
abbrev PRes := Printer × Option PErr

/-- Sequencing that mirrors the `?` operator: on error the state is kept
and the rest is skipped. -/
def pseq (r : PRes) (f : Printer → PRes) : PRes :=
  match r with
  | (p, none) => f p
  | (p, some e) => (p, some e)

/-- `Printer::write_str` — appends to the sink; fails when the sink's
capacity is exceeded (modelled from the spec's fallible sink interface). -/
def write_str (p : Printer) (s : String) : PRes :=
  match p.cap with
  | none => ({ p with out := p.out ++ s }, none)
  | some c =>
    if p.out.length + s.length ≤ c then ({ p with out := p.out ++ s }, none)
    else (p, some PErr.FmtErr)

/-- `Printer::write_char`. -/
def write_char (p : Printer) (c : Char) : PRes :=
  write_str p (String.singleton c)

/-- `Printer::write_ident` — writes an identifier; the CSS-modules
renaming table is external, so the identifier is written as spelled
(modelled from the spec). -/
def write_ident (p : Printer) (s : String) : PRes :=
  write_str p s

/-- `Printer::delim` — writes the delimiter with a space before it when
`ws` is set and not minifying, and a space after it when not minifying
(modelled from the spec's deferred-whitespace helper). -/
def delim (p : Printer) (c : Char) (ws : Bool) : PRes :=
  if p.minify then write_char p c
  else if ws then write_str p (" " ++ String.singleton c ++ " ")
  else write_str p (String.singleton c ++ " ")

end Css

namespace Css

/-- `Component::as_combinator` of the external selector representation. -/
def Component.as_combinator : Component → Option Css.Combinator
  | .Combinator c => some c
  | _ => none

/-- `Component::is_combinator`. -/
def Component.is_combinator (c : Component) : Bool :=
  c.as_combinator.isSome

/-- Splits a stored (match-order) component sequence at its combinators,
as `slice::split(|x| x.is_combinator())` does: the compound groups in
storage order paired with the separating combinators in storage order. -/
def split_compounds : List Component → List (List Component) × List Combinator
  | [] => ([[]], [])
  | c :: rest =>
    let r := split_compounds rest
    match c.as_combinator with
    | some cb => ([] :: r.fst, cb :: r.snd)
    | none =>
      match r.fst with
      | g :: gs => ((c :: g) :: gs, r.snd)
      | [] => ([[c]], r.snd)

/-- The components of a selector in parse order (left to right).
Modelled from the spec: storage is match order — compounds right-to-left,
each compound's contents left-to-right — so the parse-order view reverses
the compound groups and keeps each group's contents
(`iter_raw_parse_order_from(0)` of the external representation). -/
def iter_raw_parse_order (sel : Selector) : List Component :=
  let r := split_compounds sel
  let rec interleave : List (List Component) → List Combinator → List Component
    | [], _ => []
    | [g], _ => g
    | g :: gs, [] => g ++ interleave gs []
    | g :: gs, cb :: cbs => g ++ Component.Combinator cb :: interleave gs cbs
  interleave r.fst.reverse r.snd.reverse

/-- `is_type_selector` (`selector.rs` line 1402). -/
def is_type_selector : Option Component → Bool
  | some (Component.LocalName _) => true
  | some Component.ExplicitUniversalType => true
  | _ => false

/-- `is_namespace` (`selector.rs` line 1410). -/
def is_namespace : Option Component → Bool
  | some Component.ExplicitAnyNamespace => true
  | some Component.ExplicitNoNamespace => true
  | some (Component.Namespace _ _) => true
  | some (Component.DefaultNamespace _) => true
  | _ => false

/-- `has_type_selector` (`selector.rs` line 1386): the first parse-order
component — or the one after a leading namespace — is a type selector. -/
def has_type_selector (selector : Selector) : Bool :=
  match iter_raw_parse_order selector with
  | [] => is_type_selector none
  | c1 :: rest =>
    if is_namespace (some c1) then is_type_selector rest.head?
    else is_type_selector (some c1)

/-- `is_simple` (`selector.rs` line 1397): no component is a combinator. -/
def is_simple (selector : Selector) : Bool :=
  !(selector.any Component.is_combinator)

/-- `ToCss for Combinator` (`selector.rs` line 1040). -/
def Combinator.to_css (c : Combinator) (dest : Printer) : PRes :=
  match c with
  | .Child => delim dest '>' true
  | .Descendant => write_str dest " "
  | .NextSibling => delim dest '+' true
  | .LaterSibling => delim dest '~' true
  | .PseudoElement => (dest, none)
  | .Part => (dest, none)
  | .SlotAssignment => (dest, none)

/-- Textual form of an attribute operator, per the external
`cssparser`/`parcel_selectors` `ToCss` (modelled from the spec). -/
def AttrSelectorOperator.to_css : AttrSelectorOperator → String
  | .Equal => "="
  | .Includes => "~="
  | .DashMatch => "|="
  | .Prefix => "^="
  | .Substring => "*="
  | .Suffix => "$="

/-- Textual form of an `An+B` positional pseudo class.  Modelled from the
spec (the exact `An+B` shortening of the external `cssparser` writer is
not specified; the claims do not depend on it). -/
def nth_css (name : String) (a b : Int) : String :=
  ":" ++ name ++ "(" ++ toString a ++ "n" ++
    (if b < 0 then toString b else "+" ++ toString b) ++ ")"

/-- Serialization of the components that reach the `_` arm of
`serialize_component` (`selector.rs` line 1344), which defers to the
external `parcel_selectors` `ToCss`.  Modelled from the spec's canonical
textual forms.  Variants handled by earlier arms never reach this and map
to the empty string. -/
def component_fallback_css : Component → String
  | .ExplicitAnyNamespace => "*|"
  | .ExplicitNoNamespace => "|"
  | .DefaultNamespace _ => ""
  | .Namespace p _ => p ++ "|"
  | .ExplicitUniversalType => "*"
  | .LocalName name => name
  | .AttributeInNoNamespaceExists local_name => "[" ++ local_name ++ "]"
  | .AttributeOther attr => "[" ++ attr.local_name ++ "]"
  | .FirstChild => ":first-child"
  | .LastChild => ":last-child"
  | .OnlyChild => ":only-child"
  | .Root => ":root"
  | .Empty => ":empty"
  | .Scope => ":scope"
  | .FirstOfType => ":first-of-type"
  | .LastOfType => ":last-of-type"
  | .OnlyOfType => ":only-of-type"
  | .NthChild a b => nth_css "nth-child" a b
  | .NthLastChild a b => nth_css "nth-last-child" a b
  | .NthOfType a b => nth_css "nth-of-type" a b
  | .NthLastOfType a b => nth_css "nth-last-of-type" a b
  | .NthCol a b => nth_css "nth-col" a b
  | .NthLastCol a b => nth_css "nth-last-col" a b
  | .Part names => "::part(" ++ String.intercalate " " names ++ ")"
  | _ => ""

/-- The `write_prefixed!` macro of `serialize_pseudo_class`
(`selector.rs` line 589): a colon, the printer's vendor-prefix override
when non-empty (else the stored prefix), then the name. -/
def write_prefixed_class (dest : Printer) (pfx : VendorPrefix) (val : String) : PRes :=
  pseq (write_char dest ':') (fun d =>
    let vp := if !d.vendorPrefix.isEmpty then d.vendorPrefix else pfx
    pseq (write_str d vp.to_css) (fun d2 => write_str d2 val))

/-- The `write_prefixed!` macro of `serialize_pseudo_element`
(`selector.rs` line 895). -/
def write_prefixed_element (dest : Printer) (pfx : VendorPrefix) (val : String) : PRes :=
  pseq (write_str dest "::") (fun d =>
    let vp := if !d.vendorPrefix.isEmpty then d.vendorPrefix else pfx
    pseq (write_str d vp.to_css) (fun d2 => write_str d2 val))

/-- The `pseudo!` macro of `serialize_pseudo_class` (`selector.rs` line
603): an override class when the printer remaps this user-action pseudo,
else the pseudo-class text. -/
def write_user_action (dest : Printer) (cls : Option String) (s : String) : PRes :=
  match cls with
  | some c => pseq (write_char dest '.') (fun d => write_ident d c)
  | none => write_str dest s

/-- The language-list loop of the `Lang` arm of `serialize_pseudo_class`
(`selector.rs` line 568). -/
def write_langs : List String → Bool → Printer → PRes
  | [], _, dest => (dest, none)
  | lang :: rest, first, dest =>
    pseq (if first then (dest, none) else delim dest ',' false) (fun d =>
      pseq (write_str d lang) (fun d2 => write_langs rest false d2))

end Css

namespace Css

/-- The namespace inspection of `serialize_selector` (`selector.rs` lines
1124-1130): whether the namespace can be elided, and the index of the
first non-namespace component. -/
def compound_ns_info (compound : List Component) (first_index : Nat) : Bool × Nat :=
  match compound.get? first_index with
  | some Component.ExplicitAnyNamespace => (false, first_index + 1)
  | some Component.ExplicitNoNamespace => (false, first_index + 1)
  | some (Component.Namespace _ _) => (false, first_index + 1)
  | some (Component.DefaultNamespace _) => (true, first_index + 1)
  | _ => (true, first_index)

/-- Whether step 1 of the CSSOM algorithm applies (`selector.rs` lines
1133-1166): the compound reduces to a universal selector and the next
combinator is not a pseudo-element or slot-assignment marker. -/
def step1_applies (compound : List Component) (first_non_namespace : Nat)
    (next_combinator : Option Css.Combinator) : Bool :=
  first_non_namespace == compound.length - 1 &&
    (match next_combinator, compound.get? first_non_namespace with
     | some Css.Combinator.PseudoElement, _ => false
     | some Css.Combinator.SlotAssignment, _ => false
     | _, some Component.ExplicitUniversalType => true
     | _, _ => false)

/-- Any list has `sizeOf` at least one (used by the termination measures
of the serializer). -/
theorem one_le_sizeOf_list {α : Type _} [SizeOf α] (l : List α) : 1 ≤ sizeOf l := by
  cases l <;> simp_arith

mutual

/-- `serialize_selector` (`selector.rs` line 1065): split the match-order
storage at combinators, reverse the groups into parse order and emit them.
The first argument is recursion fuel, an artefact of the embedding: it is
consumed each time serialization descends into a nested selector, and
exhaustion reports `PErr.NoFuel` (the source can actually recurse
unboundedly through a style context whose selectors reach the nesting
selector again). -/
def serialize_selector : Nat → Selector → Printer → Option StyleContext → Bool → PRes
  | 0, _, dest, _, _ => (dest, some PErr.NoFuel)
  | fuel + 1, selector, dest, context, is_relative =>
    let r := split_compounds selector
    let combinators := r.snd.reverse
    let compound_selectors := r.fst.reverse
    let supports_nesting :=
      match dest.targets with
      | none => true
      | some t => Feature.CssNesting.is_compatible t
    serialize_compounds fuel compound_selectors combinators true is_relative
      supports_nesting dest context
termination_by fuel _ _ _ _ => (fuel, 0, 0)

/-- The compound loop of `serialize_selector` (`selector.rs` lines
1091-1228): `first` and `is_relative` are the loop's mutable flags,
`combinators` the parse-order combinator iterator. -/
def serialize_compounds : Nat → List (List Component) → List Css.Combinator →
    Bool → Bool → Bool → Printer → Option StyleContext → PRes
  | _, [], _, _, _, _, dest, _ => (dest, none)
  | fuel, compound :: rest, combinators, first, is_relative, sn, dest, context =>
    -- Skip implicit :scope in relative selectors (:has(:scope > a) -> :has(> a))
    match is_relative, compound with
    | true, Component.Scope :: compTail =>
      pseq (match combinators.head? with
            | some c => c.to_css dest
            | none => (dest, none))
        (fun d =>
          serialize_one_compound fuel compTail combinators.tail rest
            first false sn d context)
    | _, comp2 =>
      serialize_one_compound fuel comp2 combinators rest first is_relative sn
        dest context
termination_by fuel compounds _ _ _ _ _ _ => (fuel, sizeOf compounds, 0)

/-- One iteration of the compound loop after the relative-`:scope`
elision (`selector.rs` lines 1106-1221): emit the compound (step 1 when
it reduces to a universal selector, step 2 otherwise), then the trailing
combinator, then the remaining compounds. -/
def serialize_one_compound : Nat → List Component → List Css.Combinator →
    List (List Component) → Bool → Bool → Bool → Printer →
    Option StyleContext → PRes
  | fuel, compound, combinators, rest, first, is_relative, sn, dest, context =>
    if compound.isEmpty then
      serialize_compounds fuel rest combinators first is_relative sn dest context
    else
      let has_leading_nesting := first && (match compound.head? with
                                           | some Component.Nesting => true
                                           | _ => false)
      let first_index := if has_leading_nesting then 1 else 0
      let r := compound_ns_info compound first_index
      let next_combinator := combinators.head?
      pseq
        (if step1_applies compound r.snd next_combinator then
          serialize_compound_step1 fuel compound (has_leading_nesting && !sn)
            dest context
        else
          serialize_compound_step2 fuel compound first_index r.fst r.snd
            has_leading_nesting sn dest context)
        (fun d =>
          pseq (match next_combinator with
                | some c => c.to_css d
                | none => (d, none))
            (fun d2 =>
              serialize_compounds fuel rest combinators.tail false is_relative sn
                d2 context))
termination_by fuel compound _ rest _ _ _ _ _ => (fuel, sizeOf compound + sizeOf rest, 1)
decreasing_by
  all_goals simp_wf
  all_goals
    (have h1 := one_le_sizeOf_list compound
     have h2 := one_le_sizeOf_list rest
     first
       | (apply Prod.Lex.left; omega)
       | (apply Prod.Lex.right
          first
            | (apply Prod.Lex.left
               try simp_arith
               try omega
               done)
            | (apply Prod.Lex.right; omega)))

/-- Step 1 of the CSSOM algorithm (`selector.rs` lines 1143-1162): the
compound reduces to a universal selector; every component is emitted
(namespace included), swapping a leading nesting selector behind the
rest when nesting is being compiled away. -/
def serialize_compound_step1 : Nat → List Component → Bool → Printer →
    Option StyleContext → PRes
  | fuel, compound, swap_nesting, dest, context =>
    if swap_nesting then
      -- Swap nesting and type selector (&* -> *&).
      (match compound with
       | _ :: compTail =>
         pseq (serialize_components_all fuel compTail dest context)
           (fun d => serialize_nesting fuel d context false)
       | [] =>
         pseq (serialize_components_all fuel ([] : List Component) dest context)
           (fun d => serialize_nesting fuel d context false))
    else serialize_components_all fuel compound dest context
termination_by fuel compound _ _ _ => (fuel, sizeOf compound, 1)
decreasing_by
  all_goals simp_wf
  all_goals
    first
      | (apply Prod.Lex.left; omega)
      | (apply Prod.Lex.right
         first
           | (apply Prod.Lex.left
              try simp_arith
              try omega
              try (have h1 := one_le_sizeOf_list compound; omega)
              done)
           | (apply Prod.Lex.right; omega))

/-- Step 2 of the CSSOM algorithm (`selector.rs` lines 1177-1210): the
per-component loop, with the leading nesting selector swapped behind a
type selector (`&div` -> `div&`) or expanded against the context when
nesting is being compiled away.  The `unwrap`s of the source panic when
the guarded shape is absent. -/
def serialize_compound_step2 : Nat → List Component → Nat → Bool → Nat →
    Bool → Bool → Printer → Option StyleContext → PRes
  | fuel, compound, first_index, can_elide_namespace, first_non_namespace,
      has_leading_nesting, sn, dest, context =>
    if has_leading_nesting && !sn &&
       is_type_selector (compound.get? first_non_namespace) then
      -- Swap nesting and type selector (&div -> div&).
      (match compound with
       | nesting :: local1 :: rest2 =>
         pseq (serialize_component fuel local1 dest context) (fun d =>
           if first_non_namespace > first_index then
             -- Also check the next item in case of namespaces.
             (match rest2 with
              | local2 :: rest3 =>
                pseq (serialize_component fuel local2 d context) (fun d2 =>
                  pseq (serialize_component fuel nesting d2 context) (fun d3 =>
                    serialize_step2_rest fuel rest3 can_elide_namespace d3 context))
              | [] => (d, some PErr.Panicked))
           else
             pseq (serialize_component fuel nesting d context) (fun d2 =>
               serialize_step2_rest fuel rest2 can_elide_namespace d2 context))
       | _ => (dest, some PErr.Panicked))
    else if has_leading_nesting && !sn then
      -- Nesting may serialize differently if it is leading.
      (match compound with
       | _ :: compTail =>
         pseq (serialize_nesting fuel dest context true) (fun d =>
           serialize_step2_rest fuel compTail can_elide_namespace d context)
       | [] => serialize_nesting fuel dest context true)
    else
      serialize_step2_rest fuel compound can_elide_namespace dest context
termination_by fuel compound _ _ _ _ _ _ _ => (fuel, sizeOf compound, 1)
decreasing_by
  all_goals simp_wf
  all_goals
    first
      | (apply Prod.Lex.left; omega)
      | (apply Prod.Lex.right
         first
           | (apply Prod.Lex.left
              try simp_arith
              try omega
              try (have h1 := one_le_sizeOf_list compound; omega)
              done)
           | (apply Prod.Lex.right; omega))

/-- The step-1 loop of `serialize_selector` (`selector.rs` line 1153):
every component of the compound, no universal-type elision. -/
def serialize_components_all : Nat → List Component → Printer →
    Option StyleContext → PRes
  | _, [], dest, _ => (dest, none)
  | fuel, c :: rest, dest, context =>
    pseq (serialize_component fuel c dest context) (fun d =>
      serialize_components_all fuel rest d context)
termination_by fuel l _ _ => (fuel, sizeOf l, 0)

/-- The step-2 loop of `serialize_selector` (`selector.rs` lines
1199-1210): remaining components, eliding an `ExplicitUniversalType` when
the namespace can be elided. -/
def serialize_step2_rest : Nat → List Component → Bool → Printer →
    Option StyleContext → PRes
  | _, [], _, dest, _ => (dest, none)
  | fuel, c :: rest, can_elide, dest, context =>
    match c with
    | Component.ExplicitUniversalType =>
      if can_elide then serialize_step2_rest fuel rest can_elide dest context
      else
        pseq (serialize_component fuel Component.ExplicitUniversalType dest context)
          (fun d => serialize_step2_rest fuel rest can_elide d context)
    | c2 =>
      pseq (serialize_component fuel c2 dest context) (fun d =>
        serialize_step2_rest fuel rest can_elide d context)
termination_by fuel l _ _ _ => (fuel, sizeOf l, 0)

/-- `serialize_component` (`selector.rs` line 1233). -/
def serialize_component : Nat → Component → Printer → Option StyleContext → PRes
  | 0, _, dest, _ => (dest, some PErr.NoFuel)
  | fuel + 1, component, dest, context =>
    match component with
    | Component.Combinator c => c.to_css dest
    | Component.AttributeInNoNamespace local_name operator value case_sensitivity =>
      pseq (write_char dest '[') (fun d =>
        pseq (write_str d local_name) (fun d1 =>
          pseq (write_str d1 operator.to_css) (fun d2 =>
            pseq
              (if d2.minify then
                -- Serialize as both an identifier and a string, choose the shorter.
                let idf := value
                let s := "\"" ++ value ++ "\""
                if idf.length > 0 && idf.length < s.length then write_str d2 idf
                else write_str d2 s
              else write_str d2 ("\"" ++ value ++ "\""))
              (fun d3 =>
                pseq
                  (match case_sensitivity with
                   | ParsedCaseSensitivity.CaseSensitive => (d3, none)
                   | ParsedCaseSensitivity.AsciiCaseInsensitiveIfInHtmlElementInHtmlDocument =>
                     (d3, none)
                   | ParsedCaseSensitivity.AsciiCaseInsensitive => write_str d3 " i"
                   | ParsedCaseSensitivity.ExplicitCaseSensitive => write_str d3 " s")
                  (fun d4 => write_char d4 ']')))))
    | Component.Is list =>
      -- If there's only one simple selector, serialize it directly.
      (match list with
       | [s] =>
         if !has_type_selector s && is_simple s then
           serialize_selector fuel s dest context false
         else serialize_is_wrapped (fuel + 1) [s] dest context
       | list2 => serialize_is_wrapped (fuel + 1) list2 dest context)
    | Component.Where list =>
      pseq (write_str dest ":where(") (fun d =>
        pseq (serialize_selector_list (fuel + 1) list d context false) (fun d2 =>
          write_str d2 ")"))
    | Component.Negation list => serialize_negation (fuel + 1) list dest context
    | Component.Any pfx list =>
      pseq (write_char dest ':') (fun d =>
        pseq (write_str d pfx.to_css) (fun d2 =>
          pseq (write_str d2 "any(") (fun d3 =>
            pseq (serialize_selector_list (fuel + 1) list d3 context false) (fun d4 =>
              write_str d4 ")"))))
    | Component.Has list =>
      pseq (write_str dest ":has(") (fun d =>
        pseq (serialize_selector_list (fuel + 1) list d context true) (fun d2 =>
          write_str d2 ")"))
    | Component.NonTSPseudoClass pseudo =>
      serialize_pseudo_class (fuel + 1) pseudo dest context
    | Component.PseudoElement pseudo =>
      serialize_pseudo_element (fuel + 1) pseudo dest context
    | Component.Nesting => serialize_nesting (fuel + 1) dest context false
    | Component.Class name =>
      pseq (write_char dest '.') (fun d => write_ident d name)
    | Component.ID name =>
      pseq (write_char dest '#') (fun d => write_ident d name)
    | Component.Host sel? =>
      pseq (write_str dest ":host") (fun d =>
        match sel? with
        | some sel =>
          pseq (write_char d '(') (fun d2 =>
            pseq (serialize_selector fuel sel d2 d2.context false) (fun d3 =>
              write_char d3 ')'))
        | none => (d, none))
    | Component.Slotted sel =>
      pseq (write_str dest "::slotted(") (fun d =>
        pseq (serialize_selector fuel sel d d.context false) (fun d2 =>
          write_char d2 ')'))
    | other => write_str dest (component_fallback_css other)
termination_by fuel c _ _ => (fuel, sizeOf c, 0)

/-- The wrapped emission of `Component::Is` (`selector.rs` lines
1294-1301 and the shared tail 1311-1312): `:-webkit-any(`/`:-moz-any(`
when the printer's vendor-prefix override intersects WebKit or Moz, else
`:is(`, then the selector list and the closing parenthesis. -/
def serialize_is_wrapped : Nat → List Selector → Printer → Option StyleContext → PRes
  | fuel, list, dest, context =>
    let vp := dest.vendorPrefix
    pseq
      (if vp.intersects (VendorPrefix.WebKit.or VendorPrefix.Moz) then
        pseq (write_char dest ':') (fun d =>
          pseq (write_str d vp.to_css) (fun d2 => write_str d2 "any("))
      else write_str dest ":is(")
      (fun d =>
        pseq (serialize_selector_list fuel list d context false) (fun d2 =>
          write_str d2 ")"))
termination_by fuel list _ _ => (fuel, sizeOf list, 2)

/-- `serialize_nesting` (`selector.rs` line 1351). -/
def serialize_nesting : Nat → Printer → Option StyleContext → Bool → PRes
  | 0, dest, _, _ => (dest, some PErr.NoFuel)
  | fuel + 1, dest, context, first =>
    match context with
    | some ctx =>
      -- If there's only one simple selector, just serialize it directly;
      -- otherwise use an :is() pseudo class.
      (match ctx.selectors with
       | [s] =>
         if first || (!has_type_selector s && is_simple s) then
           serialize_selector fuel s dest ctx.parent false
         else
           pseq (write_str dest ":is(") (fun d =>
             pseq (serialize_selector_list fuel ctx.selectors d ctx.parent false)
               (fun d2 => write_char d2 ')'))
       | _ =>
         pseq (write_str dest ":is(") (fun d =>
           pseq (serialize_selector_list fuel ctx.selectors d ctx.parent false)
             (fun d2 => write_char d2 ')')))
    | none =>
      let supports_nesting :=
        match dest.targets with
        | none => true
        | some t => Feature.CssNesting.is_compatible t
      if supports_nesting then write_char dest '&'
      else write_str dest ":scope"
termination_by fuel _ _ _ => (fuel, 0, 0)

/-- `serialize_selector_list` (`selector.rs` line 1420). -/
def serialize_selector_list : Nat → List Selector → Printer →
    Option StyleContext → Bool → PRes
  | fuel, list, dest, context, is_relative =>
    serialize_selector_list_aux fuel list true dest context is_relative
termination_by fuel list _ _ _ => (fuel, sizeOf list, 1)

/-- The loop of `serialize_selector_list` with its `first` flag. -/
def serialize_selector_list_aux : Nat → List Selector → Bool → Printer →
    Option StyleContext → Bool → PRes
  | 0, _, _, dest, _, _ => (dest, some PErr.NoFuel)
  | _ + 1, [], _, dest, _, _ => (dest, none)
  | fuel + 1, sel :: rest, first, dest, context, is_relative =>
    pseq (if first then (dest, none) else delim dest ',' false) (fun d =>
      pseq (serialize_selector fuel sel d context is_relative) (fun d2 =>
        serialize_selector_list_aux (fuel + 1) rest false d2 context is_relative))
termination_by fuel list _ _ _ _ => (fuel, sizeOf list, 0)

/-- `serialize_negation` (`selector.rs` line 1441). -/
def serialize_negation : Nat → List Selector → Printer → Option StyleContext → PRes
  | fuel, list, dest, context =>
    -- Downlevel :not(.a, .b) -> :not(.a):not(.b) if not list is unsupported.
    let is_supported :=
      match dest.targets with
      | some t => Feature.CssNotSelList.is_compatible t
      | none => true
    if is_supported then
      pseq (write_str dest ":not(") (fun d =>
        pseq (serialize_selector_list fuel list d context false) (fun d2 =>
          write_char d2 ')'))
    else serialize_negation_each fuel list dest context
termination_by fuel list _ _ => (fuel, sizeOf list, 2)

/-- The per-branch loop of `serialize_negation` (`selector.rs` lines
1462-1466). -/
def serialize_negation_each : Nat → List Selector → Printer →
    Option StyleContext → PRes
  | 0, _, dest, _ => (dest, some PErr.NoFuel)
  | _ + 1, [], dest, _ => (dest, none)
  | fuel + 1, sel :: rest, dest, context =>
    pseq (write_str dest ":not(") (fun d =>
      pseq (serialize_selector fuel sel d context false) (fun d2 =>
        pseq (write_char d2 ')') (fun d3 =>
          serialize_negation_each (fuel + 1) rest d3 context)))
termination_by fuel list _ _ => (fuel, sizeOf list, 0)

/-- `serialize_pseudo_class` (`selector.rs` line 558). -/
def serialize_pseudo_class : Nat → PseudoClass → Printer → Option StyleContext → PRes
  | 0, _, dest, _ => (dest, some PErr.NoFuel)
  | fuel + 1, pseudo_class, dest, context =>
    match pseudo_class with
    | PseudoClass.Lang langs =>
      pseq (write_str dest ":lang(") (fun d =>
        pseq (write_langs langs true d) (fun d2 => write_str d2 ")"))
    | PseudoClass.Dir dir =>
      pseq (write_str dest ":dir(") (fun d =>
        pseq (write_str d dir.to_css) (fun d2 => write_str d2 ")"))
    | PseudoClass.Hover =>
      write_user_action dest
        (match dest.pseudoClasses with
         | some pcs => pcs.hover
         | none => none) ":hover"
    | PseudoClass.Active =>
      write_user_action dest
        (match dest.pseudoClasses with
         | some pcs => pcs.active
         | none => none) ":active"
    | PseudoClass.Focus =>
      write_user_action dest
        (match dest.pseudoClasses with
         | some pcs => pcs.focus
         | none => none) ":focus"
    | PseudoClass.FocusVisible =>
      write_user_action dest
        (match dest.pseudoClasses with
         | some pcs => pcs.focus_visible
         | none => none) ":focus-visible"
    | PseudoClass.FocusWithin =>
      write_user_action dest
        (match dest.pseudoClasses with
         | some pcs => pcs.focus_within
         | none => none) ":focus-within"
    | PseudoClass.Current => write_str dest ":current"
    | PseudoClass.Past => write_str dest ":past"
    | PseudoClass.Future => write_str dest ":future"
    | PseudoClass.Playing => write_str dest ":playing"
    | PseudoClass.Paused => write_str dest ":paused"
    | PseudoClass.Seeking => write_str dest ":seeking"
    | PseudoClass.Buffering => write_str dest ":buffering"
    | PseudoClass.Stalled => write_str dest ":stalled"
    | PseudoClass.Muted => write_str dest ":muted"
    | PseudoClass.VolumeLocked => write_str dest ":volume-locked"
    | PseudoClass.Fullscreen pfx =>
      pseq (write_char dest ':') (fun d =>
        let vp := if !d.vendorPrefix.isEmpty then d.vendorPrefix else pfx
        pseq (write_str d vp.to_css) (fun d2 =>
          if vp = VendorPrefix.WebKit || vp = VendorPrefix.Moz then
            write_str d2 "full-screen"
          else write_str d2 "fullscreen"))
    | PseudoClass.Defined => write_str dest ":defined"
    | PseudoClass.AnyLink pfx => write_prefixed_class dest pfx "any-link"
    | PseudoClass.Link => write_str dest ":link"
    | PseudoClass.LocalLink => write_str dest ":local-link"
    | PseudoClass.Target => write_str dest ":target"
    | PseudoClass.TargetWithin => write_str dest ":target-within"
    | PseudoClass.Visited => write_str dest ":visited"
    | PseudoClass.Enabled => write_str dest ":enabled"
    | PseudoClass.Disabled => write_str dest ":disabled"
    | PseudoClass.ReadOnly pfx => write_prefixed_class dest pfx "read-only"
    | PseudoClass.ReadWrite pfx => write_prefixed_class dest pfx "read-write"
    | PseudoClass.PlaceholderShown pfx =>
      write_prefixed_class dest pfx "placeholder-shown"
    | PseudoClass.Default => write_str dest ":default"
    | PseudoClass.Checked => write_str dest ":checked"
    | PseudoClass.Indeterminate => write_str dest ":indeterminate"
    | PseudoClass.Blank => write_str dest ":blank"
    | PseudoClass.Valid => write_str dest ":valid"
    | PseudoClass.Invalid => write_str dest ":invalid"
    | PseudoClass.InRange => write_str dest ":in-range"
    | PseudoClass.OutOfRange => write_str dest ":out-of-range"
    | PseudoClass.Required => write_str dest ":required"
    | PseudoClass.Optional => write_str dest ":optional"
    | PseudoClass.UserValid => write_str dest ":user-valid"
    | PseudoClass.UserInvalid => write_str dest ":user-invalid"
    | PseudoClass.Autofill pfx => write_prefixed_class dest pfx "autofill"
    | PseudoClass.Local sel => serialize_selector fuel sel dest context false
    | PseudoClass.Global sel =>
      -- let css_module = std::mem::take(&mut dest.css_module);
      -- serialize_selector(selector, dest, context, false)?;
      -- dest.css_module = css_module;
      let css_module := dest.cssModule
      (match serialize_selector fuel sel { dest with cssModule := none } context false with
       | (p, none) => ({ p with cssModule := css_module }, none)
       | r => r)
    | PseudoClass.WebKitScrollbar s =>
      write_str dest
        (match s with
         | WebKitScrollbarPseudoClass.Horizontal => ":horizontal"
         | WebKitScrollbarPseudoClass.Vertical => ":vertical"
         | WebKitScrollbarPseudoClass.Decrement => ":decrement"
         | WebKitScrollbarPseudoClass.Increment => ":increment"
         | WebKitScrollbarPseudoClass.Start => ":start"
         | WebKitScrollbarPseudoClass.End => ":end"
         | WebKitScrollbarPseudoClass.DoubleButton => ":double-button"
         | WebKitScrollbarPseudoClass.SingleButton => ":single-button"
         | WebKitScrollbarPseudoClass.NoButton => ":no-button"
         | WebKitScrollbarPseudoClass.CornerPresent => ":corner-present"
         | WebKitScrollbarPseudoClass.WindowInactive => ":window-inactive")
    | PseudoClass.Custom name =>
      pseq (write_char dest ':') (fun d => write_str d name)
    | PseudoClass.CustomFunction name args =>
      pseq (write_char dest ':') (fun d =>
        pseq (write_str d name) (fun d1 =>
          pseq (write_char d1 '(') (fun d2 =>
            pseq (write_str d2 args) (fun d3 => write_char d3 ')'))))
termination_by fuel _ _ _ => (fuel, 0, 0)

/-- `serialize_pseudo_element` (`selector.rs` line 871). -/
def serialize_pseudo_element : Nat → PseudoElement → Printer →
    Option StyleContext → PRes
  | 0, _, dest, _ => (dest, some PErr.NoFuel)
  | fuel + 1, pseudo_element, dest, context =>
    match pseudo_element with
    -- CSS2 pseudo elements support a single colon syntax.
    | PseudoElement.After => write_str dest ":after"
    | PseudoElement.Before => write_str dest ":before"
    | PseudoElement.FirstLine => write_str dest ":first-line"
    | PseudoElement.FirstLetter => write_str dest ":first-letter"
    | PseudoElement.Marker => write_str dest "::marker"
    | PseudoElement.Selection pfx => write_prefixed_element dest pfx "selection"
    | PseudoElement.Cue => write_str dest "::cue"
    | PseudoElement.CueRegion => write_str dest "::cue-region"
    | PseudoElement.CueFunction sel =>
      pseq (write_str dest "::cue(") (fun d =>
        pseq (serialize_selector fuel sel d context false) (fun d2 =>
          write_char d2 ')'))
    | PseudoElement.CueRegionFunction sel =>
      pseq (write_str dest "::cue-region(") (fun d =>
        pseq (serialize_selector fuel sel d context false) (fun d2 =>
          write_char d2 ')'))
    | PseudoElement.Placeholder pfx =>
      pseq (write_str dest "::") (fun d =>
        let vp := if !d.vendorPrefix.isEmpty then d.vendorPrefix else pfx
        pseq (write_str d vp.to_css) (fun d2 =>
          if vp = VendorPrefix.WebKit || vp = VendorPrefix.Ms then
            write_str d2 "input-placeholder"
          else write_str d2 "placeholder"))
    | PseudoElement.Backdrop pfx => write_prefixed_element dest pfx "backdrop"
    | PseudoElement.FileSelectorButton pfx =>
      pseq (write_str dest "::") (fun d =>
        let vp := if !d.vendorPrefix.isEmpty then d.vendorPrefix else pfx
        pseq (write_str d vp.to_css) (fun d2 =>
          if vp = VendorPrefix.WebKit then write_str d2 "file-upload-button"
          else if vp = VendorPrefix.Ms then write_str d2 "browse"
          else write_str d2 "file-selector-button"))
    | PseudoElement.WebKitScrollbar s =>
      write_str dest
        (match s with
         | WebKitScrollbarPseudoElement.Scrollbar => "::-webkit-scrollbar"
         | WebKitScrollbarPseudoElement.Button => "::-webkit-scrollbar-button"
         | WebKitScrollbarPseudoElement.Track => "::-webkit-scrollbar-track"
         | WebKitScrollbarPseudoElement.TrackPiece => "::-webkit-scrollbar-track-piece"
         | WebKitScrollbarPseudoElement.Thumb => "::-webkit-scrollbar-thumb"
         | WebKitScrollbarPseudoElement.Corner => "::-webkit-scrollbar-corner"
         | WebKitScrollbarPseudoElement.Resizer => "::-webkit-resizer")
    | PseudoElement.Custom name =>
      pseq (write_str dest "::") (fun d => write_str d name)
    | PseudoElement.CustomFunction name args =>
      pseq (write_str dest "::") (fun d =>
        pseq (write_str d name) (fun d1 =>
          pseq (write_char d1 '(') (fun d2 =>
            pseq (write_str d2 args) (fun d3 => write_char d3 ')'))))
termination_by fuel _ _ _ => (fuel, 0, 0)

end

end Css

namespace Css

/-- `PseudoClass::get_prefix` (`selector.rs` line 746). -/
def PseudoClass.getPrefix : PseudoClass → VendorPrefix
  | .Fullscreen p => p
  | .AnyLink p => p
  | .ReadOnly p => p
  | .ReadWrite p => p
  | .PlaceholderShown p => p
  | .Autofill p => p
  | _ => VendorPrefix.empty

/-- `PseudoElement::get_prefix` (`selector.rs` line 1008). -/
def PseudoElement.getPrefix : PseudoElement → VendorPrefix
  | .Selection p => p
  | .Placeholder p => p
  | .Backdrop p => p
  | .FileSelectorButton p => p
  | _ => VendorPrefix.empty

/-- The per-component match of `get_prefix` (`selector.rs` lines
1676-1688): the vendor prefix this component contributes.  List-bearing
composites and `Lang`/`Dir` contribute `None` rather than empty so that
`downlevel_selectors` runs. -/
def component_vendor (component : Component) : VendorPrefix :=
  match component with
  | Component.NonTSPseudoClass (PseudoClass.Lang _) => VendorPrefix.None
  | Component.NonTSPseudoClass (PseudoClass.Dir _) => VendorPrefix.None
  | Component.Is _ => VendorPrefix.None
  | Component.Where _ => VendorPrefix.None
  | Component.Has _ => VendorPrefix.None
  | Component.Negation _ => VendorPrefix.None
  | Component.Any pfx _ => pfx
  | Component.NonTSPseudoClass pc => pc.getPrefix
  | Component.PseudoElement pe => pe.getPrefix
  | _ => VendorPrefix.empty

/-- The inner component loop of `get_prefix` (`selector.rs` lines
1675-1697) with its accumulator; `none` models the early
`return VendorPrefix::empty()` on a prefix conflict. -/
def getPrefix_components : List Component → VendorPrefix → Option VendorPrefix
  | [], acc => some acc
  | c :: rest, acc =>
    let p := component_vendor c
    if p.isEmpty then getPrefix_components rest acc
    else if acc.isEmpty || acc == p then getPrefix_components rest p
    else none

/-- The outer selector loop of `get_prefix`. -/
def getPrefix_selectors : List Selector → VendorPrefix → Option VendorPrefix
  | [], acc => some acc
  | sel :: rest, acc =>
    match getPrefix_components sel acc with
    | some acc2 => getPrefix_selectors rest acc2
    | none => none

/-- `get_prefix` (`selector.rs` line 1672): the single vendor prefix used
consistently in the list, or empty when prefixes conflict or none
appears. -/
def getPrefix (selectors : SelectorList) : VendorPrefix :=
  match getPrefix_selectors selectors VendorPrefix.empty with
  | some p => p
  | none => VendorPrefix.empty

/-- The outcome of the per-component `feature` match inside
`is_compatible` (`selector.rs` lines 1476-1627): skip (`continue`),
immediately incompatible (`return false`), or a feature to check. -/
inductive CompatCheck where
  | SkipIt
  | Incompatible
  | Needs (f : Feature)
deriving DecidableEq, Repr

/-- The pseudo-class part of the `is_compatible` match (`selector.rs`
lines 1552-1607). -/
def pseudo_class_compat (pc : PseudoClass) : CompatCheck :=
  match pc with
  | PseudoClass.Link => CompatCheck.Needs Feature.CssSel2
  | PseudoClass.Visited => CompatCheck.Needs Feature.CssSel2
  | PseudoClass.Active => CompatCheck.Needs Feature.CssSel2
  | PseudoClass.Hover => CompatCheck.Needs Feature.CssSel2
  | PseudoClass.Focus => CompatCheck.Needs Feature.CssSel2
  | PseudoClass.Lang _ => CompatCheck.Needs Feature.CssSel2
  | PseudoClass.Checked => CompatCheck.Needs Feature.CssSel3
  | PseudoClass.Disabled => CompatCheck.Needs Feature.CssSel3
  | PseudoClass.Enabled => CompatCheck.Needs Feature.CssSel3
  | PseudoClass.Target => CompatCheck.Needs Feature.CssSel3
  | PseudoClass.AnyLink p =>
    if p = VendorPrefix.None then CompatCheck.Needs Feature.CssAnyLink
    else CompatCheck.Incompatible
  | PseudoClass.Indeterminate => CompatCheck.Needs Feature.CssIndeterminatePseudo
  | PseudoClass.Fullscreen p =>
    if p = VendorPrefix.None then CompatCheck.Needs Feature.Fullscreen
    else CompatCheck.Incompatible
  | PseudoClass.FocusVisible => CompatCheck.Needs Feature.CssFocusVisible
  | PseudoClass.FocusWithin => CompatCheck.Needs Feature.CssFocusWithin
  | PseudoClass.Default => CompatCheck.Needs Feature.CssDefaultPseudo
  | PseudoClass.Dir _ => CompatCheck.Needs Feature.CssDirPseudo
  | PseudoClass.Optional => CompatCheck.Needs Feature.CssOptionalPseudo
  | PseudoClass.PlaceholderShown p =>
    if p = VendorPrefix.None then CompatCheck.Needs Feature.CssPlaceholderShown
    else CompatCheck.Incompatible
  | PseudoClass.ReadOnly p =>
    if p = VendorPrefix.None then CompatCheck.Needs Feature.CssReadOnlyWrite
    else CompatCheck.Incompatible
  | PseudoClass.ReadWrite p =>
    if p = VendorPrefix.None then CompatCheck.Needs Feature.CssReadOnlyWrite
    else CompatCheck.Incompatible
  | PseudoClass.Valid => CompatCheck.Needs Feature.FormValidation
  | PseudoClass.Invalid => CompatCheck.Needs Feature.FormValidation
  | PseudoClass.Required => CompatCheck.Needs Feature.FormValidation
  | PseudoClass.InRange => CompatCheck.Needs Feature.CssInOutOfRange
  | PseudoClass.OutOfRange => CompatCheck.Needs Feature.CssInOutOfRange
  | PseudoClass.Autofill p =>
    if p = VendorPrefix.None then CompatCheck.Needs Feature.CssAutofill
    else CompatCheck.Incompatible
  -- Experimental, no browser support — and the Custom catch-all.
  | _ => CompatCheck.Incompatible

/-- The pseudo-element part of the `is_compatible` match (`selector.rs`
lines 1609-1620). -/
def pseudo_element_compat (pe : PseudoElement) : CompatCheck :=
  match pe with
  | PseudoElement.After => CompatCheck.Needs Feature.CssGencontent
  | PseudoElement.Before => CompatCheck.Needs Feature.CssGencontent
  | PseudoElement.FirstLine => CompatCheck.Needs Feature.CssFirstLine
  | PseudoElement.FirstLetter => CompatCheck.Needs Feature.CssFirstLetter
  | PseudoElement.Selection p =>
    if p = VendorPrefix.None then CompatCheck.Needs Feature.CssSelection
    else CompatCheck.Incompatible
  | PseudoElement.Placeholder p =>
    if p = VendorPrefix.None then CompatCheck.Needs Feature.CssPlaceholder
    else CompatCheck.Incompatible
  | PseudoElement.Marker => CompatCheck.Needs Feature.CssMarkerPseudo
  | PseudoElement.Backdrop p =>
    if p = VendorPrefix.None then CompatCheck.Needs Feature.Dialog
    else CompatCheck.Incompatible
  | PseudoElement.Cue => CompatCheck.Needs Feature.Cue
  | PseudoElement.CueFunction _ => CompatCheck.Needs Feature.CueFunction
  | _ => CompatCheck.Incompatible

/-- The per-component `feature` match of `is_compatible` (`selector.rs`
lines 1476-1627). -/
def component_compat (component : Component) : CompatCheck :=
  match component with
  | Component.ID _ => CompatCheck.SkipIt
  | Component.Class _ => CompatCheck.SkipIt
  | Component.LocalName _ => CompatCheck.SkipIt
  | Component.ExplicitAnyNamespace => CompatCheck.Needs Feature.CssNamespaces
  | Component.ExplicitNoNamespace => CompatCheck.Needs Feature.CssNamespaces
  | Component.DefaultNamespace _ => CompatCheck.Needs Feature.CssNamespaces
  | Component.Namespace _ _ => CompatCheck.Needs Feature.CssNamespaces
  | Component.ExplicitUniversalType => CompatCheck.Needs Feature.CssSel2
  | Component.AttributeInNoNamespaceExists _ => CompatCheck.Needs Feature.CssSel2
  | Component.AttributeInNoNamespace _ operator _ case_sensitivity =>
    if case_sensitivity ≠ ParsedCaseSensitivity.CaseSensitive then
      CompatCheck.Needs Feature.CssCaseInsensitive
    else
      (match operator with
       | AttrSelectorOperator.Equal => CompatCheck.Needs Feature.CssSel2
       | AttrSelectorOperator.Includes => CompatCheck.Needs Feature.CssSel2
       | AttrSelectorOperator.DashMatch => CompatCheck.Needs Feature.CssSel2
       | AttrSelectorOperator.Prefix => CompatCheck.Needs Feature.CssSel3
       | AttrSelectorOperator.Substring => CompatCheck.Needs Feature.CssSel3
       | AttrSelectorOperator.Suffix => CompatCheck.Needs Feature.CssSel3)
  | Component.AttributeOther attr =>
    (match attr.operation with
     | ParsedAttrSelectorOperation.Exists => CompatCheck.Needs Feature.CssSel2
     | ParsedAttrSelectorOperation.WithValue operator case_sensitivity _ =>
       if case_sensitivity ≠ ParsedCaseSensitivity.CaseSensitive then
         CompatCheck.Needs Feature.CssCaseInsensitive
       else
         (match operator with
          | AttrSelectorOperator.Equal => CompatCheck.Needs Feature.CssSel2
          | AttrSelectorOperator.Includes => CompatCheck.Needs Feature.CssSel2
          | AttrSelectorOperator.DashMatch => CompatCheck.Needs Feature.CssSel2
          | AttrSelectorOperator.Prefix => CompatCheck.Needs Feature.CssSel3
          | AttrSelectorOperator.Substring => CompatCheck.Needs Feature.CssSel3
          | AttrSelectorOperator.Suffix => CompatCheck.Needs Feature.CssSel3))
  | Component.FirstChild => CompatCheck.Needs Feature.CssSel2
  | Component.Empty => CompatCheck.Needs Feature.CssSel3
  | Component.FirstOfType => CompatCheck.Needs Feature.CssSel3
  | Component.LastChild => CompatCheck.Needs Feature.CssSel3
  | Component.LastOfType => CompatCheck.Needs Feature.CssSel3
  | Component.Negation _ => CompatCheck.Needs Feature.CssSel3
  | Component.NthChild _ _ => CompatCheck.Needs Feature.CssSel3
  | Component.NthLastChild _ _ => CompatCheck.Needs Feature.CssSel3
  | Component.NthCol _ _ => CompatCheck.Needs Feature.CssSel3
  | Component.NthLastCol _ _ => CompatCheck.Needs Feature.CssSel3
  | Component.NthLastOfType _ _ => CompatCheck.Needs Feature.CssSel3
  | Component.NthOfType _ _ => CompatCheck.Needs Feature.CssSel3
  | Component.OnlyChild => CompatCheck.Needs Feature.CssSel3
  | Component.OnlyOfType => CompatCheck.Needs Feature.CssSel3
  | Component.Root => CompatCheck.Needs Feature.CssSel3
  | Component.Is _ => CompatCheck.Needs Feature.CssMatchesPseudo
  | Component.Nesting => CompatCheck.Needs Feature.CssMatchesPseudo
  | Component.Any _ _ => CompatCheck.Needs Feature.AnyPseudo
  | Component.Has _ => CompatCheck.Needs Feature.CssHas
  | Component.Scope => CompatCheck.Needs Feature.Shadowdomv1
  | Component.Host _ => CompatCheck.Needs Feature.Shadowdomv1
  | Component.Slotted _ => CompatCheck.Needs Feature.Shadowdomv1
  | Component.Part _ => CompatCheck.Incompatible
  | Component.Where _ => CompatCheck.Incompatible
  | Component.NonTSPseudoClass pseudo => pseudo_class_compat pseudo
  | Component.PseudoElement pseudo => pseudo_element_compat pseudo
  | Component.Combinator combinator =>
    (match combinator with
     | Css.Combinator.Child => CompatCheck.Needs Feature.CssSel2
     | Css.Combinator.NextSibling => CompatCheck.Needs Feature.CssSel2
     | Css.Combinator.LaterSibling => CompatCheck.Needs Feature.CssSel3
     | _ => CompatCheck.SkipIt)

/-- The inner component loop of `is_compatible` (`selector.rs` lines
1475-1636). -/
def is_compatible_components (l : List Component) (targets : Option Browsers) : Bool :=
  match l with
  | [] => true
  | c :: rest =>
    match component_compat c with
    | CompatCheck.SkipIt => is_compatible_components rest targets
    | CompatCheck.Incompatible => false
    | CompatCheck.Needs f =>
      match targets with
      | some t =>
        if f.is_compatible t then is_compatible_components rest targets
        else false
      | none => false

/-- `is_compatible` (`selector.rs` line 1472): false iff some component
requires a feature the targets do not support (or targets are absent and
a non-trivial feature appears). -/
def is_compatible (selectors : SelectorList) (targets : Option Browsers) : Bool :=
  match selectors with
  | [] => true
  | sel :: rest =>
    if is_compatible_components sel targets then is_compatible rest targets
    else false

/-- `RTL_LANGS` (`selector.rs` line 1703). -/
def RTL_LANGS : List String :=
  ["ae", "ar", "arc", "bcc", "bqi", "ckb", "dv", "fa", "glk", "he", "ku",
   "mzn", "nqo", "pnb", "ps", "sd", "ug", "ur", "yi"]

/-- `lang_list_to_selectors` (`selector.rs` line 1770): one
single-language `:lang` selector per entry. -/
def lang_list_to_selectors (langs : List String) : List Selector :=
  langs.map (fun lang => [Component.NonTSPseudoClass (PseudoClass.Lang [lang])])

/-- `downlevel_dir` (`selector.rs` line 1782): convert `:dir` to `:lang`,
as a single multi-language `:lang` when `LangList` is supported, else as
`:is`/`:not` of single-language `:lang`s. -/
def downlevel_dir (dir : Direction) (targets : Browsers) : Component :=
  if Feature.LangList.is_compatible targets then
    let c := Component.NonTSPseudoClass (PseudoClass.Lang RTL_LANGS)
    if dir = Direction.Ltr then Component.Negation [[c]]
    else c
  else
    if dir = Direction.Ltr then Component.Negation (lang_list_to_selectors RTL_LANGS)
    else Component.Is (lang_list_to_selectors RTL_LANGS)

/-- ASCII lower-casing, as `eq_ignore_ascii_case` /
`match_ignore_ascii_case!` normalize names. -/
def ascii_lower (s : String) : String :=
  ⟨s.data.map (fun c =>
    if 'A' ≤ c && c ≤ 'Z' then Char.ofNat (c.toNat + 32) else c)⟩

/-- The name table of `parse_pseudo_element` (`selector.rs` lines
221-248), keyed by the ASCII-lower-cased name; `none` is the fall-through
to `Custom`. -/
def parse_pseudo_element_name (n : String) : Option PseudoElement :=
  if n = "before" then some PseudoElement.Before
  else if n = "after" then some PseudoElement.After
  else if n = "first-line" then some PseudoElement.FirstLine
  else if n = "first-letter" then some PseudoElement.FirstLetter
  else if n = "cue" then some PseudoElement.Cue
  else if n = "cue-region" then some PseudoElement.CueRegion
  else if n = "selection" then some (PseudoElement.Selection VendorPrefix.None)
  else if n = "-moz-selection" then some (PseudoElement.Selection VendorPrefix.Moz)
  else if n = "placeholder" then some (PseudoElement.Placeholder VendorPrefix.None)
  else if n = "-webkit-input-placeholder" then
    some (PseudoElement.Placeholder VendorPrefix.WebKit)
  else if n = "-moz-placeholder" then some (PseudoElement.Placeholder VendorPrefix.Moz)
  else if n = "-ms-input-placeholder" then some (PseudoElement.Placeholder VendorPrefix.Moz)
  else if n = "marker" then some PseudoElement.Marker
  else if n = "backdrop" then some (PseudoElement.Backdrop VendorPrefix.None)
  else if n = "-webkit-backdrop" then some (PseudoElement.Backdrop VendorPrefix.WebKit)
  else if n = "file-selector-button" then
    some (PseudoElement.FileSelectorButton VendorPrefix.None)
  else if n = "-webkit-file-upload-button" then
    some (PseudoElement.FileSelectorButton VendorPrefix.WebKit)
  else if n = "-ms-browse" then some (PseudoElement.FileSelectorButton VendorPrefix.Ms)
  else if n = "-webkit-scrollbar" then
    some (PseudoElement.WebKitScrollbar WebKitScrollbarPseudoElement.Scrollbar)
  else if n = "-webkit-scrollbar-button" then
    some (PseudoElement.WebKitScrollbar WebKitScrollbarPseudoElement.Button)
  else if n = "-webkit-scrollbar-track" then
    some (PseudoElement.WebKitScrollbar WebKitScrollbarPseudoElement.Track)
  else if n = "-webkit-scrollbar-track-piece" then
    some (PseudoElement.WebKitScrollbar WebKitScrollbarPseudoElement.TrackPiece)
  else if n = "-webkit-scrollbar-thumb" then
    some (PseudoElement.WebKitScrollbar WebKitScrollbarPseudoElement.Thumb)
  else if n = "-webkit-scrollbar-corner" then
    some (PseudoElement.WebKitScrollbar WebKitScrollbarPseudoElement.Corner)
  else if n = "-webkit-resizer" then
    some (PseudoElement.WebKitScrollbar WebKitScrollbarPseudoElement.Resizer)
  else none

/-- `parse_pseudo_element` (`selector.rs` line 215): the name is matched
ASCII-case-insensitively; unknown names become `Custom` with the original
spelling (the warning side effect goes to the external warnings sink and
is not modelled). -/
def parse_pseudo_element (name : String) : PseudoElement :=
  match parse_pseudo_element_name (ascii_lower name) with
  | some pe => pe
  | none => PseudoElement.Custom name

end Css

namespace Css

mutual

/-- `is_unused` (`selector.rs` line 1804): a selector list is unused when
the unused-symbol set is non-empty and every branch contains a class or id
from it, recursing into `:is`/`:where`/`:any` and treating `Nesting`
against the parent flag.  The `HashSet` is modelled as a list of
symbols. -/
def is_unused (selectors : List Selector) (unused_symbols : List String)
    (parent_is_unused : Bool) : Bool :=
  if unused_symbols.isEmpty then false
  else is_unused_all selectors unused_symbols parent_is_unused
termination_by (sizeOf selectors, 1)

/-- The `selectors.all(...)` fold of `is_unused`. -/
def is_unused_all : List Selector → List String → Bool → Bool
  | [], _, _ => true
  | sel :: rest, unused_symbols, parent_is_unused =>
    selector_is_unused sel unused_symbols parent_is_unused &&
      is_unused_all rest unused_symbols parent_is_unused
termination_by l _ _ => (sizeOf l, 0)

/-- The per-selector component loop of `is_unused` (`selector.rs` lines
1814-1835). -/
def selector_is_unused : List Component → List String → Bool → Bool
  | [], _, _ => false
  | c :: rest, unused_symbols, parent_is_unused =>
    match c with
    | Component.Class name =>
      if unused_symbols.contains name then true
      else selector_is_unused rest unused_symbols parent_is_unused
    | Component.ID name =>
      if unused_symbols.contains name then true
      else selector_is_unused rest unused_symbols parent_is_unused
    | Component.Is l =>
      if is_unused l unused_symbols parent_is_unused then true
      else selector_is_unused rest unused_symbols parent_is_unused
    | Component.Where l =>
      if is_unused l unused_symbols parent_is_unused then true
      else selector_is_unused rest unused_symbols parent_is_unused
    | Component.Any _ l =>
      if is_unused l unused_symbols parent_is_unused then true
      else selector_is_unused rest unused_symbols parent_is_unused
    | Component.Nesting =>
      if parent_is_unused then true
      else selector_is_unused rest unused_symbols parent_is_unused
    | _ => selector_is_unused rest unused_symbols parent_is_unused
termination_by l _ _ => (sizeOf l, 0)

end

end Css

namespace Css

/-- Sequencing after a success runs the continuation. -/
theorem pseq_ok (p : Printer) (f : Printer → PRes) : pseq (p, none) f = f p := rfl

/-- Sequencing after an error keeps the error and state. -/
theorem pseq_err (p : Printer) (e : PErr) (f : Printer → PRes) :
    pseq (p, some e) f = (p, some e) := rfl

/-- Sequencing is associative. -/
theorem pseq_assoc (r : PRes) (f g : Printer → PRes) :
    pseq (pseq r f) g = pseq r (fun p => pseq (f p) g) := by
  rcases r with ⟨p, e⟩
  cases e <;> rfl

/-- The collapse guard of the `Is` arm of `serialize_component`
(`selector.rs` lines 1286-1288): a single branch with no type selector
and no combinator. -/
def is_single_simple (list : List Selector) : Bool :=
  match list with
  | [s] => !has_type_selector s && is_simple s
  | _ => false

/-- The inline guard of `serialize_nesting` (`selector.rs` lines
1364-1365): exactly one parent branch that is leading in the current
compound or is a simple selector without a type selector. -/
def nesting_inline (ctx : StyleContext) (first : Bool) : Bool :=
  match ctx.selectors with
  | [s] => first || (!has_type_selector s && is_simple s)
  | _ => false

/-- One branch of the `:not(a):not(b)` conjunction form of
`serialize_negation`. -/
def not_branch (fuel : Nat) (context : Option StyleContext) (acc : PRes)
    (sel : Selector) : PRes :=
  pseq acc (fun d =>
    pseq (write_str d ":not(") (fun d1 =>
      pseq (serialize_selector fuel sel d1 context false) (fun d2 =>
        write_char d2 ')')))

/-- Folding further `:not` branches onto an error keeps the error. -/
theorem foldl_not_branch_err (fuel : Nat) (context : Option StyleContext) :
    ∀ (list : List Selector) (p : Printer) (e : PErr),
      list.foldl (not_branch fuel context) (p, some e) = (p, some e) := by
  intro list
  induction list with
  | nil => intro p e; rfl
  | cons sel rest ih =>
    intro p e
    simp only [List.foldl, not_branch, pseq_err]
    exact ih p e

/-- The per-branch loop of `serialize_negation` is the left fold of the
`:not(...)` branch emitter. -/
theorem serialize_negation_each_foldl (fuel : Nat) (context : Option StyleContext) :
    ∀ (list : List Selector) (dest : Printer),
      serialize_negation_each (fuel + 1) list dest context =
        list.foldl (not_branch fuel context) (dest, none) := by
  intro list
  induction list with
  | nil => intro dest; simp [serialize_negation_each]
  | cons sel rest ih =>
    intro dest
    have hbody :
        serialize_negation_each (fuel + 1) (sel :: rest) dest context =
          pseq (not_branch fuel context (dest, none) sel)
            (fun d3 => serialize_negation_each (fuel + 1) rest d3 context) := by
      simp only [serialize_negation_each, not_branch, pseq_ok, pseq_assoc]
    rw [hbody]
    rcases h : not_branch fuel context (dest, none) sel with ⟨p, e⟩
    cases e with
    | none =>
      simp only [pseq_ok, List.foldl, h, ih p]
    | some err =>
      simp only [pseq_err, List.foldl, h, foldl_not_branch_err]

end Css

namespace Css

/-- C2 counterexample: serializing `:global(.a)` into a printer whose
sink has no remaining capacity makes the inner `serialize_selector` fail;
the error propagates through the `?` operator before the restore
assignment runs, so the printer ends with `css_module` still cleared
(`none`) although it started as `some ()`.  This refutes the claim that
the state is restored on every exit path. -/
theorem c2_global_error_counterexample :
    ((serialize_pseudo_class 20 (PseudoClass.Global [Component.Class "a"])
        ⟨"", some 0, false, none, VendorPrefix.empty, none, some (), none⟩ none).snd =
      some PErr.FmtErr)
    ∧ ((serialize_pseudo_class 20 (PseudoClass.Global [Component.Class "a"])
        ⟨"", some 0, false, none, VendorPrefix.empty, none, some (), none⟩ none).fst.cssModule =
      none)
    ∧ ((⟨"", some 0, false, none, VendorPrefix.empty, none, some (), none⟩ : Printer).cssModule =
      some ()) := by
  refine ⟨?_, ?_, rfl⟩ <;>
    simp [serialize_pseudo_class, serialize_selector, serialize_compounds,
      serialize_one_compound, serialize_compound_step2, serialize_step2_rest,
      serialize_component, split_compounds, Component.as_combinator, compound_ns_info,
      step1_applies, is_type_selector, pseq, write_char, write_str, write_ident]

/-- C2 (amended): serializing `:global(selector)` saves the printer's
`css_module` state, clears it for the inner `serialize_selector` call and
restores it when that call succeeds; when the inner call returns an
error, the error propagates with the state left cleared. -/
theorem c2_global_css_module (fuel : Nat) (sel : Selector) (dest : Printer)
    (context : Option StyleContext) :
    serialize_pseudo_class (fuel + 1) (PseudoClass.Global sel) dest context =
      (match serialize_selector fuel sel { dest with cssModule := none } context false with
       | (p, none) => ({ p with cssModule := dest.cssModule }, none)
       | (p, some e) => (p, some e)) := by
  rcases h : serialize_selector fuel sel { dest with cssModule := none } context false with ⟨p, e⟩
  cases e <;> simp [serialize_pseudo_class, h]

/-- C5: when `:dir()` must be downleveled (CssDirPseudo unsupported),
`downlevel_dir` uses the fixed RTL language list; with `LangList`
supported it produces a single multi-language `:lang` (wrapped in `:not`
for `ltr`), otherwise `:is` (resp. `:not`) of one single-language `:lang`
per entry. -/
theorem c5_downlevel_dir (targets : Browsers)
    (hdir : Feature.CssDirPseudo.is_compatible targets = false) :
    (RTL_LANGS = ["ae", "ar", "arc", "bcc", "bqi", "ckb", "dv", "fa", "glk",
      "he", "ku", "mzn", "nqo", "pnb", "ps", "sd", "ug", "ur", "yi"])
    ∧ (Feature.LangList.is_compatible targets = true →
        downlevel_dir Direction.Rtl targets =
          Component.NonTSPseudoClass (PseudoClass.Lang RTL_LANGS) ∧
        downlevel_dir Direction.Ltr targets =
          Component.Negation [[Component.NonTSPseudoClass (PseudoClass.Lang RTL_LANGS)]])
    ∧ (Feature.LangList.is_compatible targets = false →
        downlevel_dir Direction.Rtl targets =
          Component.Is (RTL_LANGS.map (fun lang =>
            [Component.NonTSPseudoClass (PseudoClass.Lang [lang])])) ∧
        downlevel_dir Direction.Ltr targets =
          Component.Negation (RTL_LANGS.map (fun lang =>
            [Component.NonTSPseudoClass (PseudoClass.Lang [lang])]))) := by
  refine ⟨rfl, fun h => ⟨?_, ?_⟩, fun h => ⟨?_, ?_⟩⟩ <;>
    simp [downlevel_dir, h, lang_list_to_selectors]

/-- C5 witness: a target set supporting only `LangList`. -/
theorem c5_downlevel_dir_witness :
    (Feature.CssDirPseudo.is_compatible ⟨fun f => f == Feature.LangList⟩ = false)
    ∧ (Feature.LangList.is_compatible ⟨fun f => f == Feature.LangList⟩ = true)
    ∧ downlevel_dir Direction.Rtl ⟨fun f => f == Feature.LangList⟩ =
        Component.NonTSPseudoClass (PseudoClass.Lang RTL_LANGS) :=
  ⟨rfl, rfl, ((c5_downlevel_dir ⟨fun f => f == Feature.LangList⟩ rfl).2.1 rfl).1⟩

/-- C8: any pseudo-element name that ASCII-lower-cases to
`-ms-input-placeholder` parses to the `Placeholder` variant with the
`Moz` vendor prefix, not `Ms`. -/
theorem c8_ms_input_placeholder (name : String)
    (h : ascii_lower name = "-ms-input-placeholder") :
    parse_pseudo_element name = PseudoElement.Placeholder VendorPrefix.Moz := by
  unfold parse_pseudo_element
  rw [h]
  rfl

/-- C8 witness: a mixed-case spelling of the name. -/
theorem c8_ms_input_placeholder_witness :
    ascii_lower "-MS-Input-Placeholder" = "-ms-input-placeholder"
    ∧ parse_pseudo_element "-MS-Input-Placeholder" =
        PseudoElement.Placeholder VendorPrefix.Moz :=
  ⟨by decide, c8_ms_input_placeholder "-MS-Input-Placeholder" (by decide)⟩

/-- C10: with an empty unused-symbol set, `is_unused` returns false for
every selector list (including the empty list, where the all-branches
condition would hold vacuously) and every parent flag. -/
theorem c10_is_unused_empty (selectors : List Selector)
    (unused_symbols : List String) (parent_is_unused : Bool)
    (h : unused_symbols.isEmpty = true) :
    is_unused selectors unused_symbols parent_is_unused = false := by
  simp [is_unused, h]

/-- C10 witness: the empty selector list with the empty symbol set. -/
theorem c10_is_unused_empty_witness :
    ([] : List String).isEmpty = true ∧ is_unused [] [] true = false :=
  ⟨rfl, c10_is_unused_empty [] [] true rfl⟩

end Css

namespace Css

/-- C4: with `CssNesting` unsupported by the printer's targets,
serializing the nesting selector emits `:scope` when there is no style
context; with a context whose parent list is exactly one branch that is
leading in the current compound (`first`) or is combinator-free without a
type selector, the parent selector is inlined; otherwise the parent list
is wrapped as `:is(parent-list)`. -/
theorem c4_serialize_nesting (fuel : Nat) (dest : Printer) (t : Browsers)
    (ht : dest.targets = some t)
    (hn : Feature.CssNesting.is_compatible t = false) :
    (∀ first, serialize_nesting (fuel + 1) dest none first = write_str dest ":scope")
    ∧ (∀ ctx first s, ctx.selectors = [s] →
        (first = true ∨ (has_type_selector s = false ∧ is_simple s = true)) →
        serialize_nesting (fuel + 1) dest (some ctx) first =
          serialize_selector fuel s dest ctx.parent false)
    ∧ (∀ ctx first, nesting_inline ctx first = false →
        serialize_nesting (fuel + 1) dest (some ctx) first =
          pseq (write_str dest ":is(") (fun d =>
            pseq (serialize_selector_list fuel ctx.selectors d ctx.parent false)
              (fun d2 => write_char d2 ')'))) := by
  refine ⟨fun first => ?_, fun ctx first s hsel hcond => ?_, fun ctx first hni => ?_⟩
  · simp [serialize_nesting, ht, hn]
  · rcases hcond with h | ⟨h1, h2⟩
    · subst h
      simp [serialize_nesting, hsel]
    · simp [serialize_nesting, hsel, h1, h2]
  · rcases hs : ctx.selectors with _ | ⟨s, tail⟩
    · simp [serialize_nesting, hs]
    · rcases tail with _ | ⟨s2, tail2⟩
      · have : (first || (!has_type_selector s && is_simple s)) = false := by
          simpa [nesting_inline, hs] using hni
        simp [serialize_nesting, hs, this]
      · simp [serialize_nesting, hs]

/-- C4 witness: `&` with no context and a target set without nesting
support serializes to `:scope`. -/
theorem c4_serialize_nesting_witness :
    ((⟨"", none, false, some ⟨fun _ => false⟩, VendorPrefix.empty, none, none, none⟩ :
        Printer).targets = some ⟨fun _ => false⟩)
    ∧ (Feature.CssNesting.is_compatible ⟨fun _ => false⟩ = false)
    ∧ serialize_nesting 1
        ⟨"", none, false, some ⟨fun _ => false⟩, VendorPrefix.empty, none, none, none⟩
        none true =
      write_str ⟨"", none, false, some ⟨fun _ => false⟩, VendorPrefix.empty, none, none, none⟩
        ":scope" :=
  ⟨rfl, rfl,
    (c4_serialize_nesting 0
      ⟨"", none, false, some ⟨fun _ => false⟩, VendorPrefix.empty, none, none, none⟩
      ⟨fun _ => false⟩ rfl rfl).1 true⟩

/-- C6: serializing `:is(list)` with a single branch that has no type
selector and no combinator emits that branch directly with no wrapper;
otherwise the list is emitted inside `:is(...)`, or inside
`:-webkit-any(...)`/`:-moz-any(...)` when the printer's vendor-prefix
override intersects the WebKit or Moz prefixes. -/
theorem c6_serialize_is (fuel : Nat) (list : List Selector) (dest : Printer)
    (context : Option StyleContext) :
    (∀ s, list = [s] → has_type_selector s = false → is_simple s = true →
      serialize_component (fuel + 1) (Component.Is list) dest context =
        serialize_selector fuel s dest context false)
    ∧ (is_single_simple list = false →
      serialize_component (fuel + 1) (Component.Is list) dest context =
        pseq
          (if dest.vendorPrefix.intersects (VendorPrefix.WebKit.or VendorPrefix.Moz) then
            pseq (write_char dest ':') (fun d =>
              pseq (write_str d dest.vendorPrefix.to_css) (fun d2 =>
                write_str d2 "any("))
          else write_str dest ":is(")
          (fun d =>
            pseq (serialize_selector_list (fuel + 1) list d context false)
              (fun d2 => write_str d2 ")"))) := by
  constructor
  · intro s hl h1 h2
    subst hl
    simp [serialize_component, h1, h2]
  · intro hns
    rcases list with _ | ⟨s, tail⟩
    · simp [serialize_component, serialize_is_wrapped]
    · rcases tail with _ | ⟨s2, tail2⟩
      · have : (!has_type_selector s && is_simple s) = false := by
          simpa [is_single_simple] using hns
        simp [serialize_component, this, serialize_is_wrapped]
      · simp [serialize_component, serialize_is_wrapped]

/-- C6 witness: `:is(.a)` collapses to `.a`. -/
theorem c6_serialize_is_witness :
    has_type_selector [Component.Class "a"] = false
    ∧ is_simple [Component.Class "a"] = true
    ∧ serialize_component 1 (Component.Is [[Component.Class "a"]])
        ⟨"", none, false, none, VendorPrefix.empty, none, none, none⟩ none =
      serialize_selector 0 [Component.Class "a"]
        ⟨"", none, false, none, VendorPrefix.empty, none, none, none⟩ none false :=
  ⟨by decide, by decide,
    (c6_serialize_is 0 [[Component.Class "a"]]
      ⟨"", none, false, none, VendorPrefix.empty, none, none, none⟩ none).1
      [Component.Class "a"] rfl (by decide) (by decide)⟩

/-- C7: serializing `:not(list)` emits the single `:not(a, b)` form when
the targets support `CssNotSelList` or no targets are given, and the
conjunction `:not(a):not(b)...` of single-branch negations when targets
are present that do not support it. -/
theorem c7_serialize_negation (fuel : Nat) (list : List Selector) (dest : Printer)
    (context : Option StyleContext) :
    ((dest.targets = none ∨
        (∃ t, dest.targets = some t ∧ Feature.CssNotSelList.is_compatible t = true)) →
      serialize_negation (fuel + 1) list dest context =
        pseq (write_str dest ":not(") (fun d =>
          pseq (serialize_selector_list (fuel + 1) list d context false) (fun d2 =>
            write_char d2 ')')))
    ∧ (∀ t, dest.targets = some t → Feature.CssNotSelList.is_compatible t = false →
      serialize_negation (fuel + 1) list dest context =
        list.foldl (not_branch fuel context) (dest, none)) := by
  constructor
  · intro h
    rcases h with h | ⟨t, ht, hc⟩
    · simp [serialize_negation, h]
    · simp [serialize_negation, ht, hc]
  · intro t ht hc
    rw [show serialize_negation (fuel + 1) list dest context =
          serialize_negation_each (fuel + 1) list dest context by
        simp [serialize_negation, ht, hc]]
    exact serialize_negation_each_foldl fuel context list dest

/-- C7 witness: `:not(.a, .b)` against targets without `CssNotSelList`
support takes the conjunction form. -/
theorem c7_serialize_negation_witness :
    ((⟨"", none, false, some ⟨fun _ => false⟩, VendorPrefix.empty, none, none, none⟩ :
        Printer).targets = some ⟨fun _ => false⟩)
    ∧ (Feature.CssNotSelList.is_compatible ⟨fun _ => false⟩ = false)
    ∧ serialize_negation 1 [[Component.Class "a"], [Component.Class "b"]]
        ⟨"", none, false, some ⟨fun _ => false⟩, VendorPrefix.empty, none, none, none⟩ none =
      [[Component.Class "a"], [Component.Class "b"]].foldl (not_branch 0 none)
        (⟨"", none, false, some ⟨fun _ => false⟩, VendorPrefix.empty, none, none, none⟩, none) :=
  ⟨rfl, rfl,
    (c7_serialize_negation 0 [[Component.Class "a"], [Component.Class "b"]]
      ⟨"", none, false, some ⟨fun _ => false⟩, VendorPrefix.empty, none, none, none⟩
      none).2 ⟨fun _ => false⟩ rfl rfl⟩

end Css

namespace Css

/-- A component whose `get_prefix` contribution is forced to
`VendorPrefix::None`: a list-bearing composite (`:is`, `:where`, `:has`,
`:not`) or a `Lang`/`Dir` pseudo class. -/
def contributes_none (c : Component) : Bool :=
  match c with
  | Component.Is _ => true
  | Component.Where _ => true
  | Component.Has _ => true
  | Component.Negation _ => true
  | Component.NonTSPseudoClass (PseudoClass.Lang _) => true
  | Component.NonTSPseudoClass (PseudoClass.Dir _) => true
  | _ => false

/-- A selector list containing a list-bearing composite or `Lang`/`Dir`. -/
def contains_composite (selectors : SelectorList) : Bool :=
  selectors.any (fun sel => sel.any contributes_none)

/-- A component whose `get_prefix` contribution is absent or the `None`
flag (no actual vendor prefix). -/
def contribution_ok (c : Component) : Bool :=
  (component_vendor c).isEmpty || component_vendor c == VendorPrefix.None

/-- A list-bearing composite or `Lang`/`Dir` contributes exactly the
`None` flag. -/
theorem contributes_none_vendor (c : Component) (h : contributes_none c = true) :
    component_vendor c = VendorPrefix.None := by
  cases c <;>
    first
      | rfl
      | (simp [contributes_none] at h
         done)
      | (rename_i pc
         cases pc <;>
           first
             | rfl
             | simp [contributes_none] at h)

/-- The `None` flag is not the empty prefix set. -/
theorem none_not_isEmpty : VendorPrefix.None.isEmpty = false := rfl

/-- Once the accumulator holds the `None` flag, the component loop of
`get_prefix` either keeps it or aborts with a conflict. -/
theorem getPrefix_components_none (l : List Component) :
    getPrefix_components l VendorPrefix.None = some VendorPrefix.None ∨
    getPrefix_components l VendorPrefix.None = none := by
  induction l with
  | nil => exact Or.inl rfl
  | cons c rest ih =>
    by_cases hp : (component_vendor c).isEmpty = true
    · simpa [getPrefix_components, hp] using ih
    · by_cases he : (VendorPrefix.None == component_vendor c) = true
      · have heq := eq_of_beq he
        rw [show getPrefix_components (c :: rest) VendorPrefix.None =
              getPrefix_components rest (component_vendor c) by
            simp [getPrefix_components, hp, he, none_not_isEmpty]]
        rw [← heq]
        exact ih
      · right
        simp [getPrefix_components, hp, none_not_isEmpty,
          Bool.eq_false_iff.mpr he]

/-- If the remaining components contain a composite, the component loop
of `get_prefix` ends in the `None` flag or aborts, whatever the
accumulator. -/
theorem getPrefix_components_reach (l : List Component) :
    ∀ acc, l.any contributes_none = true →
      getPrefix_components l acc = some VendorPrefix.None ∨
      getPrefix_components l acc = none := by
  induction l with
  | nil => intro acc h; simp at h
  | cons c rest ih =>
    intro acc h
    by_cases hc : contributes_none c = true
    · have hv := contributes_none_vendor c hc
      by_cases ha : acc.isEmpty = true
      · simpa [getPrefix_components, hv, ha, none_not_isEmpty] using
          getPrefix_components_none rest
      · by_cases he : (acc == VendorPrefix.None) = true
        · have heq := eq_of_beq he
          subst heq
          simpa [getPrefix_components, hv, ha, none_not_isEmpty] using
            getPrefix_components_none rest
        · right
          simp [getPrefix_components, hv, ha, none_not_isEmpty,
            Bool.eq_false_iff.mpr he]
    · have hcf : contributes_none c = false := by
        cases hx : contributes_none c
        · rfl
        · exact absurd hx hc
      have hr : rest.any contributes_none = true := by
        simpa [List.any_cons, hcf] using h
      by_cases hp : (component_vendor c).isEmpty = true
      · simpa [getPrefix_components, hp] using ih acc hr
      · by_cases hcond : (acc.isEmpty || acc == component_vendor c) = true
        · rw [show getPrefix_components (c :: rest) acc =
                getPrefix_components rest (component_vendor c) by
              simp [getPrefix_components, hp, hcond]]
          exact ih (component_vendor c) hr
        · right
          simp [getPrefix_components, hp, Bool.eq_false_iff.mpr hcond]

end Css

namespace Css

/-- The selector loop of `get_prefix` starting from the `None` flag ends
in `None` or aborts. -/
theorem getPrefix_selectors_none (sels : List Selector) :
    getPrefix_selectors sels VendorPrefix.None = some VendorPrefix.None ∨
    getPrefix_selectors sels VendorPrefix.None = none := by
  induction sels with
  | nil => exact Or.inl rfl
  | cons sel rest ih =>
    rcases getPrefix_components_none sel with h | h <;>
      simp [getPrefix_selectors, h]
    exact ih

/-- If the list contains a composite, the selector loop of `get_prefix`
ends in the `None` flag or aborts, whatever the accumulator. -/
theorem getPrefix_selectors_reach (sels : List Selector) :
    ∀ acc, contains_composite sels = true →
      getPrefix_selectors sels acc = some VendorPrefix.None ∨
      getPrefix_selectors sels acc = none := by
  induction sels with
  | nil => intro acc h; simp [contains_composite] at h
  | cons sel rest ih =>
    intro acc h
    by_cases hs : sel.any contributes_none = true
    · rcases getPrefix_components_reach sel acc hs with hcc | hcc <;>
        simp [getPrefix_selectors, hcc]
      exact getPrefix_selectors_none rest
    · have hsf : sel.any contributes_none = false := by
        cases hx : sel.any contributes_none
        · rfl
        · exact absurd hx hs
      have hr : contains_composite rest = true := by
        simpa [contains_composite, List.any_cons, hsf] using h
      rcases hcc : getPrefix_components sel acc with _ | acc2
      · simp [getPrefix_selectors, hcc]
      · simpa [getPrefix_selectors, hcc] using ih acc2 hr

/-- With only `None`-or-absent contributions, the component loop of
`get_prefix` never aborts and keeps the accumulator in the empty or
`None` flags. -/
theorem getPrefix_components_clean (l : List Component) :
    ∀ acc, l.all contribution_ok = true →
      (acc = VendorPrefix.empty ∨ acc = VendorPrefix.None) →
      ∃ v, getPrefix_components l acc = some v ∧
        (v = VendorPrefix.empty ∨ v = VendorPrefix.None) := by
  induction l with
  | nil => intro acc _ hacc; exact ⟨acc, rfl, hacc⟩
  | cons c rest ih =>
    intro acc hall hacc
    have hboth : contribution_ok c = true ∧ rest.all contribution_ok = true := by
      rw [List.all_cons, Bool.and_eq_true] at hall
      exact hall
    have hok := hboth.1
    have hrest := hboth.2
    by_cases hp : (component_vendor c).isEmpty = true
    · simpa [getPrefix_components, hp] using ih acc hrest hacc
    · have hv : component_vendor c = VendorPrefix.None := by
        have hd : (component_vendor c).isEmpty = true ∨
            component_vendor c = VendorPrefix.None := by
          simpa [contribution_ok] using hok
        rcases hd with h | h
        · exact absurd h hp
        · exact h
      have hcond : (acc.isEmpty || acc == component_vendor c) = true := by
        rcases hacc with h | h <;> subst h <;> simp [hv, VendorPrefix.empty, VendorPrefix.isEmpty]
      rw [show getPrefix_components (c :: rest) acc =
            getPrefix_components rest (component_vendor c) by
          simp [getPrefix_components, hp, hcond]]
      exact ih (component_vendor c) hrest (Or.inr hv)

/-- With only `None`-or-absent contributions, the selector loop of
`get_prefix` never aborts and keeps the accumulator in the empty or
`None` flags. -/
theorem getPrefix_selectors_clean (sels : List Selector) :
    ∀ acc, sels.all (fun sel => sel.all contribution_ok) = true →
      (acc = VendorPrefix.empty ∨ acc = VendorPrefix.None) →
      ∃ v, getPrefix_selectors sels acc = some v ∧
        (v = VendorPrefix.empty ∨ v = VendorPrefix.None) := by
  induction sels with
  | nil => intro acc _ hacc; exact ⟨acc, rfl, hacc⟩
  | cons sel rest ih =>
    intro acc hall hacc
    have hboth : sel.all contribution_ok = true ∧
        rest.all (fun sel => sel.all contribution_ok) = true := by
      rw [List.all_cons, Bool.and_eq_true] at hall
      exact hall
    have hsel := hboth.1
    have hrest := hboth.2
    rcases getPrefix_components_clean sel acc hsel hacc with ⟨v, hv, hvv⟩
    rw [show getPrefix_selectors (sel :: rest) acc =
          getPrefix_selectors rest v by simp [getPrefix_selectors, hv]]
    exact ih v hrest hvv

end Css

namespace Css

/-- C3 (amended): for a selector list containing a list-bearing composite
(`:is`, `:where`, `:has`, `:not`) or a `Lang`/`Dir` pseudo class,
`get_prefix` returns the `None` flag or the empty set; it returns the
`None` flag whenever no component contributes an actual vendor prefix
other than the `None` flag. -/
theorem c3_getPrefix_composite (selectors : SelectorList)
    (h : contains_composite selectors = true) :
    (getPrefix selectors = VendorPrefix.None ∨
      getPrefix selectors = VendorPrefix.empty) ∧
    (selectors.all (fun sel => sel.all contribution_ok) = true →
      getPrefix selectors = VendorPrefix.None) := by
  constructor
  · rcases getPrefix_selectors_reach selectors VendorPrefix.empty h with hr | hr
    · exact Or.inl (by simp [getPrefix, hr])
    · exact Or.inr (by simp [getPrefix, hr])
  · intro hclean
    rcases getPrefix_selectors_clean selectors VendorPrefix.empty hclean
        (Or.inl rfl) with ⟨v, hv, _⟩
    rcases getPrefix_selectors_reach selectors VendorPrefix.empty h with hr | hr
    · simp [getPrefix, hr]
    · rw [hr] at hv
      exact absurd hv (by simp)

/-- C3 counterexample: a list containing `:is(.a)` (a composite) together
with `:-webkit-autofill`; the conflicting `WebKit` contribution aborts
the loop and `get_prefix` returns the empty set, not the `None` flag. -/
theorem c3_getPrefix_counterexample :
    contains_composite [[Component.Is [[Component.Class "a"]],
        Component.NonTSPseudoClass (PseudoClass.Autofill VendorPrefix.WebKit)]]
      = true ∧
    getPrefix [[Component.Is [[Component.Class "a"]],
        Component.NonTSPseudoClass (PseudoClass.Autofill VendorPrefix.WebKit)]]
      ≠ VendorPrefix.None := by
  decide

/-- C3 witness: `:is(.a)` alone yields the `None` flag. -/
theorem c3_getPrefix_composite_witness :
    contains_composite [[Component.Is [[Component.Class "a"]]]] = true ∧
    getPrefix [[Component.Is [[Component.Class "a"]]]] = VendorPrefix.None :=
  ⟨by decide, (c3_getPrefix_composite [[Component.Is [[Component.Class "a"]]]]
      (by decide)).2 (by decide)⟩

/-- A `::part()` or `:where()` component. -/
def is_part_or_where (c : Component) : Bool :=
  match c with
  | Component.Part _ => true
  | Component.Where _ => true
  | _ => false

/-- `::part()` and `:where()` hit the `return false` arm of
`is_compatible`. -/
theorem is_part_or_where_incompatible (c : Component)
    (h : is_part_or_where c = true) :
    component_compat c = CompatCheck.Incompatible := by
  cases c <;> first | rfl | simp [is_part_or_where] at h

/-- A `::part()` or `:where()` anywhere in the component list makes the
inner loop of `is_compatible` return false, for every target set. -/
theorem is_compatible_components_part_where (l : List Component)
    (targets : Option Browsers) (h : l.any is_part_or_where = true) :
    is_compatible_components l targets = false := by
  induction l with
  | nil => simp at h
  | cons c rest ih =>
    by_cases hc : is_part_or_where c = true
    · have hcc := is_part_or_where_incompatible c hc
      simp [is_compatible_components, hcc]
    · have hcf : is_part_or_where c = false := by
        cases hx : is_part_or_where c
        · rfl
        · exact absurd hx hc
      have hr : rest.any is_part_or_where = true := by
        simpa [List.any_cons, hcf] using h
      cases hcc : component_compat c with
      | SkipIt => simpa [is_compatible_components, hcc] using ih hr
      | Incompatible => simp [is_compatible_components, hcc]
      | Needs f =>
        cases targets with
        | none => simp [is_compatible_components, hcc]
        | some t =>
          by_cases hf : f.is_compatible t = true
          · simpa [is_compatible_components, hcc, hf] using ih hr
          · simp [is_compatible_components, hcc, Bool.eq_false_iff.mpr hf]

/-- C9: a selector list containing a `::part()` or `:where()` component
is reported incompatible by `is_compatible` for every choice of targets,
including targets that support every feature. -/
theorem c9_is_compatible_part_where (selectors : SelectorList)
    (targets : Option Browsers)
    (h : selectors.any (fun sel => sel.any is_part_or_where) = true) :
    is_compatible selectors targets = false := by
  induction selectors with
  | nil => simp at h
  | cons sel rest ih =>
    by_cases hs : sel.any is_part_or_where = true
    · simp [is_compatible,
        is_compatible_components_part_where sel targets hs]
    · have hsf : sel.any is_part_or_where = false := by
        cases hx : sel.any is_part_or_where
        · rfl
        · exact absurd hx hs
      have hr : rest.any (fun sel => sel.any is_part_or_where) = true := by
        simpa [List.any_cons, hsf] using h
      by_cases hcomp : is_compatible_components sel targets = true
      · simpa [is_compatible, hcomp] using ih hr
      · simp [is_compatible, Bool.eq_false_iff.mpr hcomp]

/-- C9 witness: `::part(x)` against targets that support everything. -/
theorem c9_is_compatible_part_where_witness :
    List.any [[Component.Part ["x"]]] (fun sel => sel.any is_part_or_where)
      = true ∧
    is_compatible [[Component.Part ["x"]]] (some ⟨fun _ => true⟩) = false :=
  ⟨by decide, c9_is_compatible_part_where [[Component.Part ["x"]]]
      (some ⟨fun _ => true⟩) (by decide)⟩

end Css
